import Mathlib

/-!
Shallow embedding of `src/my_subsynth.py` (class `mySubSynth`, a subtractive
synthesizer built from pyo DSP objects).

The class is configuration glue: it stores eight control parameters
(`type1..3`, `sharp1..3`, `cutoffFact`, `res`), wires three `LFO` oscillators
through a `MidiAdsr` envelope into a `MoogLP` lowpass filter and a fixed
center `Pan`, and exposes setters/getters plus `ctrl()` map lists for a GUI.

The embedding models the object's stored state and the parameters it pushes
into each underlying DSP object as a record over `ℚ` (exact arithmetic in
place of Python floats), the constructor and each setter as state
transformers, and `ctrl()` as the list of `SLMap` records the source builds.
DSP dynamics implemented inside the external pyo library (the ADSR envelope
shape, the ladder filter recurrence, the pan law) are not in this repository;
where a claim needs them they are modelled from the spec, each such
definition carrying a doc comment that says so.
-/

/-- One `SLMap` record as constructed in `mySubSynth.ctrl`
(`SLMap(min, max, scale, name, init, res=..., dataOnly=...)`). -/
structure SLMap where
  min : ℚ
  max : ℚ
  scale : String
  name : String
  init : ℚ
  res : String
  dataOnly : Bool
deriving DecidableEq

/-- The observable state of a `mySubSynth` instance: the eight stored
`self._xxx` attributes, the parameters last pushed into each underlying DSP
object (`self._osc1.type`, `self._osc1.sharp`, ..., `self._filt.res`), the
cutoff factor captured in the filter frequency expression
`self._env*20000*cutoffFact` (field `filt_freqFact`), and the fixed pan
position of the `Pan` object. -/
structure SynthState where
  type1 : ℚ
  sharp1 : ℚ
  type2 : ℚ
  sharp2 : ℚ
  type3 : ℚ
  sharp3 : ℚ
  cutoffFact : ℚ
  res : ℚ
  osc1_type : ℚ
  osc1_sharp : ℚ
  osc2_type : ℚ
  osc2_sharp : ℚ
  osc3_type : ℚ
  osc3_sharp : ℚ
  filt_freqFact : ℚ
  filt_res : ℚ
  pan : ℚ
deriving DecidableEq

/-- `mySubSynth.__init__`: stores each argument in the corresponding
`self._xxx` attribute, passes `type`/`sharp` of each argument pair to the
matching `LFO`, builds the filter with `freq=self._env*20000*self._cutoffFact`
and `res=self._res`, and pans at the literal `pan=0.5`. -/
def mySubSynth (type1 sharp1 type2 sharp2 type3 sharp3 cutoffFact res : ℚ) :
    SynthState :=
  { type1 := type1, sharp1 := sharp1, type2 := type2, sharp2 := sharp2,
    type3 := type3, sharp3 := sharp3, cutoffFact := cutoffFact, res := res,
    osc1_type := type1, osc1_sharp := sharp1,
    osc2_type := type2, osc2_sharp := sharp2,
    osc3_type := type3, osc3_sharp := sharp3,
    filt_freqFact := cutoffFact, filt_res := res, pan := 1/2 }

/-- `mySubSynth()` with the default arguments of `__init__`
(`type1=0, sharp1=1, type2=0, sharp2=1, type3=0, sharp3=1, cutoffFact=0.5,
res=0.5`). -/
def mySubSynthDefault : SynthState :=
  mySubSynth 0 1 0 1 0 1 (1/2) (1/2)

/-- `setType1`: `self._type1 = x; self._osc1.type = x`. The `type1` property
setter delegates to this method and the getter returns `self._type1`. -/
def setType1 (s : SynthState) (x : ℚ) : SynthState :=
  { s with type1 := x, osc1_type := x }

/-- `setSharp1`: `self._sharp1 = x; self._osc1.sharp = x`. -/
def setSharp1 (s : SynthState) (x : ℚ) : SynthState :=
  { s with sharp1 := x, osc1_sharp := x }

/-- `setType2`: `self._type2 = x; self._osc2.type = x`. -/
def setType2 (s : SynthState) (x : ℚ) : SynthState :=
  { s with type2 := x, osc2_type := x }

/-- `setSharp2`: `self._sharp2 = x; self._osc2.sharp = x`. -/
def setSharp2 (s : SynthState) (x : ℚ) : SynthState :=
  { s with sharp2 := x, osc2_sharp := x }

/-- `setType3`: `self._type3 = x; self._osc3.type = x`. -/
def setType3 (s : SynthState) (x : ℚ) : SynthState :=
  { s with type3 := x, osc3_type := x }

/-- `setSharp3`: `self._sharp3 = x; self._osc3.sharp = x`. -/
def setSharp3 (s : SynthState) (x : ℚ) : SynthState :=
  { s with sharp3 := x, osc3_sharp := x }

/-- `setCutoffFact`: `self._cutoffFact = x; self._filt.freq = self._env*20000*x`. -/
def setCutoffFact (s : SynthState) (x : ℚ) : SynthState :=
  { s with cutoffFact := x, filt_freqFact := x }

/-- `setRes`: `self._res = x; self._filt.res = x`. -/
def setRes (s : SynthState) (x : ℚ) : SynthState :=
  { s with res := x, filt_res := x }

/-- The per-sample value of the filter cutoff signal
`self._env*20000*cutoffFact` at envelope level `e`: pyo signal arithmetic is
pointwise, so the stream evaluates to `e * 20000 * filt_freqFact`. -/
def filtFreq (s : SynthState) (e : ℚ) : ℚ :=
  e * 20000 * s.filt_freqFact

/-- The first map list built in `ctrl`: the six oscillator parameters
(`type1`, `sharp1`, `type2`, `sharp2`, `type3`, `sharp3`). -/
def mapListOsc (s : SynthState) : List SLMap :=
  [⟨0, 7, "lin", "type1", s.type1, "int", true⟩,
   ⟨0, 1, "lin", "sharp1", s.sharp1, "float", false⟩,
   ⟨0, 7, "lin", "type2", s.type2, "int", true⟩,
   ⟨0, 1, "lin", "sharp2", s.sharp2, "float", false⟩,
   ⟨0, 7, "lin", "type3", s.type3, "int", true⟩,
   ⟨0, 1, "lin", "sharp3", s.sharp3, "float", false⟩]

/-- The second map list built in `ctrl`: the two filter parameters
(`cutoffFact`, `res`). -/
def mapListFilt (s : SynthState) : List SLMap :=
  [⟨0, 1, "lin", "cutoffFact", s.cutoffFact, "float", false⟩,
   ⟨0, 1, "lin", "res", s.res, "float", false⟩]

/-- All named-parameter maps that `ctrl` hands to `PyoObject.ctrl`
(the oscillator panel followed by the filter panel). -/
def ctrlMaps (s : SynthState) : List SLMap :=
  mapListOsc s ++ mapListFilt s

/-- Per-sample output of a pyo `LFO` object whose raw waveform sample is
`raw`, with multiplier `mul` and additive input `add`: pyo audio objects
produce `raw * mul + add`. -/
def lfoOut (raw mul add : ℚ) : ℚ :=
  raw * mul + add

/-- The per-sample signal this file feeds into `MoogLP`: the chain
`osc1 = LFO(..., mul=env)`, `osc2 = LFO(..., mul=env, add=osc1)`,
`osc3 = LFO(..., mul=env, add=osc2)` evaluated at raw oscillator samples
`r1 r2 r3` and envelope level `e` (osc1 has the default `add = 0`). -/
def oscChainOut (r1 r2 r3 e : ℚ) : ℚ :=
  lfoOut r3 e (lfoOut r2 e (lfoOut r1 e 0))

/-- The spec's formulation of the voice signal: the oscillator bank first
sums the three raw oscillator outputs, and the bank sum is then multiplied
by the envelope level (`oscillatorBank.advance() * envelope.currentLevel()`). -/
def specBankOut (r1 r2 r3 e : ℚ) : ℚ :=
  (r1 + r2 + r3) * e

/-- Attack time passed to `MidiAdsr` in `__init__` (`attack=0.05`). -/
def envAttack : ℚ := 5/100

/-- Decay time passed to `MidiAdsr` in `__init__` (`decay=0.4`). -/
def envDecay : ℚ := 4/10

/-- Sustain level passed to `MidiAdsr` in `__init__` (`sustain=0.2`). -/
def envSustain : ℚ := 2/10

/-- Release time passed to `MidiAdsr` in `__init__` (`release=0.5`). -/
def envRelease : ℚ := 5/10

/-- Envelope level while the gate is held (note still on), `t` seconds after
note-on. Modelled from the spec: the `MidiAdsr` envelope generator lives in
the external pyo library, not in this repository; spec section 4.3 requires
monotonic, continuous ramps per stage, so the Attack stage ramps linearly
from 0 to the velocity peak over `a` seconds, the Decay stage ramps linearly
down to `sus * vel` over `d` seconds, and the Sustain stage holds
`sus * vel`. -/
def gateLevel (a d sus vel t : ℚ) : ℚ :=
  if t ≤ a then vel * t / a
  else if t ≤ a + d then vel - vel * (1 - sus) * (t - a) / d
  else sus * vel

/-- Envelope level of a note-on at `t = 0` with velocity `vel` and note-off
at `t = off`. Modelled from the spec: the ADSR implementation is library
code; per spec section 4.3 a note-off moves to Release from the current
level, and the Release stage ramps linearly to 0 over `r` seconds. -/
def adsrLevel (a d sus r vel off t : ℚ) : ℚ :=
  if t ≤ 0 then 0
  else if off ≤ t then
    if off + r ≤ t then 0
    else gateLevel a d sus vel off * (1 - (t - off) / r)
  else gateLevel a d sus vel t

/-- Clamp `x` into the interval from `lo` to `hi`. -/
def clampQ (lo hi x : ℚ) : ℚ :=
  max lo (min hi x)

/-- State of the four cascaded one-pole lowpass stages of the ladder filter. -/
structure LadderState where
  y1 : ℚ
  y2 : ℚ
  y3 : ℚ
  y4 : ℚ
deriving DecidableEq

/-- One one-pole lowpass stage with smoothing coefficient `c`, previous
output `y` and input `x`. Modelled from the spec (section 4.4): each ladder
stage is a standard one-pole lowpass, written here in the incremental form
`y + c * (x - y)`. -/
def onePole (c y x : ℚ) : ℚ :=
  y + c * (x - y)

/-- One sample step of the resonant lowpass filter. Modelled from the spec:
`MoogLP` is implemented inside the external pyo library; spec section 4.4
prescribes four cascaded one-pole lowpass stages sharing one smoothing
coefficient `c`, with resonance as negative feedback of the fourth stage's
output into the first stage's input scaled by the resonance parameter, and
(spec sections 3 and 4.4) the feedback clamped or soft-limited so that the
output stays bounded for all bounded inputs: here the resonance gain is
clamped to the interval from 0 to 1 and the fed-back sample is soft-limited
to the interval from -1 to 1. -/
def ladderStep (c r : ℚ) (st : LadderState) (x : ℚ) : LadderState :=
  let u := x - clampQ 0 1 r * clampQ (-1) 1 st.y4
  ⟨onePole c st.y1 u,
   onePole c st.y2 (onePole c st.y1 u),
   onePole c st.y3 (onePole c st.y2 (onePole c st.y1 u)),
   onePole c st.y4 (onePole c st.y3 (onePole c st.y2 (onePole c st.y1 u)))⟩

/-- The ladder filter run for `n` samples on input stream `input`, starting
from the zero state; the filter's output sample is the fourth stage `y4`. -/
def ladderRun (c r : ℚ) (input : ℕ → ℚ) : ℕ → LadderState
  | 0 => ⟨0, 0, 0, 0⟩
  | n + 1 => ladderStep c r (ladderRun c r input n) (input n)

/-- Smoothing coefficient of each one-pole stage derived from the cutoff
frequency and the sample rate. Modelled from the spec: section 4.4 leaves
the exact coefficient mapping to the implementer; this analog-matched choice
satisfies the two facts the claims use, namely that the coefficient is 0 at
cutoff 0 and always lies in the interval from 0 to 1. -/
def coeffOfCutoff (cutoff sr : ℚ) : ℚ :=
  clampQ 0 1 (cutoff / (cutoff + sr))

/-- Left channel of the stereo panner at pan position `p`. Modelled from the
spec: `Pan` is library code; spec section 4.5 gives the linear pan law
`left = sample * (1 - pan)`. -/
def panLeft (p sample : ℚ) : ℚ :=
  sample * (1 - p)

/-- Right channel of the stereo panner at pan position `p`. Modelled from the
spec: `Pan` is library code; spec section 4.5 gives the linear pan law
`right = sample * pan`. -/
def panRight (p sample : ℚ) : ℚ :=
  sample * p

/-- Helper: the triangle inequality for a difference. -/
theorem abs_sub_le_sum (a b : ℚ) : |a - b| ≤ |a| + |b| := by
  calc |a - b| = |a + -b| := by rw [sub_eq_add_neg]
    _ ≤ |a| + |-b| := abs_add _ _
    _ = |a| + |b| := by rw [abs_neg]

/-- C1: Setting any of the eight parameters via its accessor and reading it
back via its getter returns exactly the value that was set. -/
theorem C1_setter_getter_roundtrip (s : SynthState) (x : ℚ) :
    (setType1 s x).type1 = x ∧ (setSharp1 s x).sharp1 = x ∧
    (setType2 s x).type2 = x ∧ (setSharp2 s x).sharp2 = x ∧
    (setType3 s x).type3 = x ∧ (setSharp3 s x).sharp3 = x ∧
    (setCutoffFact s x).cutoffFact = x ∧ (setRes s x).res = x :=
  ⟨rfl, rfl, rfl, rfl, rfl, rfl, rfl, rfl⟩

/-- C3: At construction and after every `setCutoffFact x`, the filter's
cutoff signal evaluated at envelope level `e` equals the envelope level
times the fixed ceiling 20000 Hz times the cutoff factor. -/
theorem C3_cutoff_signal (t1 s1 t2 s2 t3 s3 cf r x e : ℚ) (st : SynthState) :
    filtFreq (mySubSynth t1 s1 t2 s2 t3 s3 cf r) e = e * 20000 * cf ∧
    filtFreq (setCutoffFact st x) e = e * 20000 * x :=
  ⟨rfl, rfl⟩

/-- C4: `ctrl` builds slider maps for exactly the eight named parameters in
order, each with linear scale; the three type parameters are integer-valued
with range from 0 to 7, and the three sharpness parameters, `cutoffFact`
and `res` are float-valued with range from 0 to 1. -/
theorem C4_ctrl_exposes_eight (s : SynthState) :
    (ctrlMaps s).map (fun m => (m.name, m.scale, m.min, m.max, m.res)) =
      [("type1", "lin", 0, 7, "int"), ("sharp1", "lin", 0, 1, "float"),
       ("type2", "lin", 0, 7, "int"), ("sharp2", "lin", 0, 1, "float"),
       ("type3", "lin", 0, 7, "int"), ("sharp3", "lin", 0, 1, "float"),
       ("cutoffFact", "lin", 0, 1, "float"), ("res", "lin", 0, 1, "float")] :=
  rfl

/-- C5: The per-sample signal the source's mul/add oscillator chain feeds
into the lowpass filter equals the spec's formulation that sums the three
raw oscillator outputs first and then multiplies the bank sum by the
envelope level. -/
theorem C5_chain_equals_bank (r1 r2 r3 e : ℚ) :
    oscChainOut r1 r2 r3 e = specBankOut r1 r2 r3 e := by
  simp only [oscChainOut, lfoOut, specBankOut]
  ring

/-- C9: The panner is constructed at the fixed center position 0.5, `pan`
is not among the named parameters `ctrl` exposes, no parameter setter
changes it, and at center the linear pan law splits the filter output
equally between the two channels. -/
theorem C9_center_pan (t1 s1 t2 s2 t3 s3 cf r x smp : ℚ) (st : SynthState) :
    (mySubSynth t1 s1 t2 s2 t3 s3 cf r).pan = 1/2 ∧
    "pan" ∉ (ctrlMaps st).map SLMap.name ∧
    (setType1 st x).pan = st.pan ∧ (setSharp1 st x).pan = st.pan ∧
    (setType2 st x).pan = st.pan ∧ (setSharp2 st x).pan = st.pan ∧
    (setType3 st x).pan = st.pan ∧ (setSharp3 st x).pan = st.pan ∧
    (setCutoffFact st x).pan = st.pan ∧ (setRes st x).pan = st.pan ∧
    panLeft (1/2) smp = panRight (1/2) smp := by
  refine ⟨rfl, ?_, rfl, rfl, rfl, rfl, rfl, rfl, rfl, rfl, ?_⟩
  · show "pan" ∉
      ["type1", "sharp1", "type2", "sharp2", "type3", "sharp3",
       "cutoffFact", "res"]
    decide
  · show smp * (1 - 1/2) = smp * (1/2)
    norm_num

/-- C10: A default-constructed synth has type1 = type2 = type3 = 0,
sharp1 = sharp2 = sharp3 = 1, cutoffFact = res = 0.5, and each setter
changes only its own stored attribute and its own DSP object's parameter:
restoring exactly those two fields recovers the original state. -/
theorem C10_defaults_and_frame (st : SynthState) (x : ℚ) :
    (mySubSynthDefault.type1 = 0 ∧ mySubSynthDefault.sharp1 = 1 ∧
     mySubSynthDefault.type2 = 0 ∧ mySubSynthDefault.sharp2 = 1 ∧
     mySubSynthDefault.type3 = 0 ∧ mySubSynthDefault.sharp3 = 1 ∧
     mySubSynthDefault.cutoffFact = 1/2 ∧ mySubSynthDefault.res = 1/2) ∧
    { setType1 st x with type1 := st.type1, osc1_type := st.osc1_type } = st ∧
    { setSharp1 st x with sharp1 := st.sharp1, osc1_sharp := st.osc1_sharp } = st ∧
    { setType2 st x with type2 := st.type2, osc2_type := st.osc2_type } = st ∧
    { setSharp2 st x with sharp2 := st.sharp2, osc2_sharp := st.osc2_sharp } = st ∧
    { setType3 st x with type3 := st.type3, osc3_type := st.osc3_type } = st ∧
    { setSharp3 st x with sharp3 := st.sharp3, osc3_sharp := st.osc3_sharp } = st ∧
    { setCutoffFact st x with cutoffFact := st.cutoffFact, filt_freqFact := st.filt_freqFact } = st ∧
    { setRes st x with res := st.res, filt_res := st.filt_res } = st := by
  obtain ⟨f1, f2, f3, f4, f5, f6, f7, f8, f9, f10, f11, f12, f13, f14, f15, f16, f17⟩ := st
  exact ⟨⟨rfl, rfl, rfl, rfl, rfl, rfl, rfl, rfl⟩,
    rfl, rfl, rfl, rfl, rfl, rfl, rfl, rfl⟩

/-- Helper: during the release phase of the C6 scenario (velocity 1,
note-off at 0.6 s), the envelope level is the linear ramp from the sustain
level 1/5 down to 0 over the 0.5 s release time. -/
theorem adsrLevel_release_eval (t : ℚ) (h1 : 6/10 ≤ t) (h2 : t < 11/10) :
    adsrLevel envAttack envDecay envSustain envRelease 1 (6/10) t =
      1/5 * (1 - (t - 6/10) / (1/2)) := by
  show (if t ≤ 0 then 0
    else if 6/10 ≤ t then
      if 6/10 + envRelease ≤ t then 0
      else gateLevel envAttack envDecay envSustain 1 (6/10) * (1 - (t - 6/10) / envRelease)
    else gateLevel envAttack envDecay envSustain 1 t) = 1/5 * (1 - (t - 6/10) / (1/2))
  rw [if_neg (by linarith), if_pos h1,
    if_neg (show ¬ (6/10 + envRelease ≤ t) by rw [envRelease]; intro h; linarith)]
  norm_num [gateLevel, envAttack, envDecay, envSustain, envRelease]

/-- C6: With the `MidiAdsr` configuration from `__init__` (attack 0.05 s,
decay 0.4 s, sustain 0.2, release 0.5 s) and the spec-modelled envelope, a
note-on with velocity 1 at t = 0 and note-off at t = 0.6 s gives: the level
reaches the attack peak 1 at t = 0.05 s, equals the sustain level
0.2 x velocity at t = 0.45 s, is strictly declining between any two release
instants, and is 0 at t = 1.1 s. -/
theorem C6_adsr_scenario (u v : ℚ) (hu : 6/10 ≤ u) (huv : u < v)
    (hv : v < 11/10) :
    envAttack = 5/100 ∧ envDecay = 4/10 ∧ envSustain = 2/10 ∧
    envRelease = 5/10 ∧
    adsrLevel envAttack envDecay envSustain envRelease 1 (6/10) (5/100) = 1 ∧
    adsrLevel envAttack envDecay envSustain envRelease 1 (6/10) (45/100)
      = envSustain * 1 ∧
    adsrLevel envAttack envDecay envSustain envRelease 1 (6/10) v <
      adsrLevel envAttack envDecay envSustain envRelease 1 (6/10) u ∧
    adsrLevel envAttack envDecay envSustain envRelease 1 (6/10) (11/10) = 0 := by
  refine ⟨rfl, rfl, rfl, rfl,
    by norm_num [adsrLevel, gateLevel, envAttack, envDecay, envSustain, envRelease],
    by norm_num [adsrLevel, gateLevel, envAttack, envDecay, envSustain, envRelease],
    ?_,
    by norm_num [adsrLevel, gateLevel, envAttack, envDecay, envSustain, envRelease]⟩
  rw [adsrLevel_release_eval u hu (by linarith),
    adsrLevel_release_eval v (by linarith) hv]
  have hd : (v - 6/10) / (1/2) - (u - 6/10) / (1/2) = 2 * (v - u) := by
    field_simp
    ring
  nlinarith [hd]

/-- C6 witness: the scenario theorem applied at the concrete release
instants u = 0.7 s and v = 0.9 s. -/
theorem C6_adsr_scenario_witness :
    envAttack = 5/100 ∧ envDecay = 4/10 ∧ envSustain = 2/10 ∧
    envRelease = 5/10 ∧
    adsrLevel envAttack envDecay envSustain envRelease 1 (6/10) (5/100) = 1 ∧
    adsrLevel envAttack envDecay envSustain envRelease 1 (6/10) (45/100)
      = envSustain * 1 ∧
    adsrLevel envAttack envDecay envSustain envRelease 1 (6/10) (9/10) <
      adsrLevel envAttack envDecay envSustain envRelease 1 (6/10) (7/10) ∧
    adsrLevel envAttack envDecay envSustain envRelease 1 (6/10) (11/10) = 0 :=
  C6_adsr_scenario (7/10) (9/10) (by norm_num) (by norm_num) (by norm_num)

/-- C7: After `setCutoffFact 0` (or construction with cutoff factor 0) the
filter's cutoff signal is 0 Hz at every envelope level, and the
spec-modelled ladder filter driven with a 0 cutoff outputs exactly 0 on
every sample, for every input stream and every resonance value. -/
theorem C7_zero_cutoff_silent (t1 s1 t2 s2 t3 s3 r e sr rq : ℚ)
    (st : SynthState) (input : ℕ → ℚ) (n : ℕ) :
    filtFreq (setCutoffFact st 0) e = 0 ∧
    filtFreq (mySubSynth t1 s1 t2 s2 t3 s3 0 r) e = 0 ∧
    (ladderRun (coeffOfCutoff 0 sr) rq input n).y4 = 0 := by
  refine ⟨by simp [filtFreq, setCutoffFact], by simp [filtFreq, mySubSynth], ?_⟩
  have hc : coeffOfCutoff 0 sr = 0 := by
    norm_num [coeffOfCutoff, clampQ]
  rw [hc]
  have hz : ∀ m, ladderRun 0 rq input m = ⟨0, 0, 0, 0⟩ := by
    intro m
    induction m with
    | zero => rfl
    | succ k ih => simp [ladderRun, ih, ladderStep, onePole]
  rw [hz n]

/-- Helper: a one-pole stage with coefficient in the unit interval maps two
values of magnitude at most `B` to a value of magnitude at most `B`. -/
theorem onePole_bound {c y x B : ℚ} (hc0 : 0 ≤ c) (hc1 : c ≤ 1)
    (hy : |y| ≤ B) (hx : |x| ≤ B) : |onePole c y x| ≤ B := by
  rw [abs_le] at *
  unfold onePole
  constructor
  · nlinarith [mul_nonneg (by linarith : (0:ℚ) ≤ 1 - c) (by linarith : (0:ℚ) ≤ B + y),
      mul_nonneg hc0 (by linarith : (0:ℚ) ≤ B + x)]
  · nlinarith [mul_nonneg (by linarith : (0:ℚ) ≤ 1 - c) (by linarith : (0:ℚ) ≤ B - y),
      mul_nonneg hc0 (by linarith : (0:ℚ) ≤ B - x)]

/-- Helper: the clamped resonance feedback term has magnitude at most 1. -/
theorem fb_bound (r y : ℚ) : |clampQ 0 1 r * clampQ (-1) 1 y| ≤ 1 := by
  have h1 : |clampQ 0 1 r| ≤ 1 := by
    rw [abs_le]
    unfold clampQ
    refine ⟨le_trans (by norm_num) (le_max_left _ _), max_le (by norm_num) (min_le_left _ _)⟩
  have h2 : |clampQ (-1) 1 y| ≤ 1 := by
    rw [abs_le]
    unfold clampQ
    exact ⟨le_max_left _ _, max_le (by norm_num) (min_le_left _ _)⟩
  rw [abs_mul]
  calc |clampQ 0 1 r| * |clampQ (-1) 1 y| ≤ 1 * 1 :=
        mul_le_mul h1 h2 (abs_nonneg _) zero_le_one
    _ = 1 := one_mul 1

/-- Helper: one ladder step keeps all four stage outputs within `B + 1` when
the coefficient is in the unit interval and the input sample is within `B`. -/
theorem ladderStep_bound {c r B : ℚ} (st : LadderState) (x : ℚ)
    (hc0 : 0 ≤ c) (hc1 : c ≤ 1)
    (h1 : |st.y1| ≤ B + 1) (h2 : |st.y2| ≤ B + 1) (h3 : |st.y3| ≤ B + 1)
    (h4 : |st.y4| ≤ B + 1) (hx : |x| ≤ B) :
    |(ladderStep c r st x).y1| ≤ B + 1 ∧ |(ladderStep c r st x).y2| ≤ B + 1 ∧
    |(ladderStep c r st x).y3| ≤ B + 1 ∧ |(ladderStep c r st x).y4| ≤ B + 1 := by
  have hu : |x - clampQ 0 1 r * clampQ (-1) 1 st.y4| ≤ B + 1 :=
    le_trans (abs_sub_le_sum _ _) (by have := fb_bound r st.y4; linarith)
  have k1 := onePole_bound hc0 hc1 h1 hu
  have k2 := onePole_bound hc0 hc1 h2 k1
  have k3 := onePole_bound hc0 hc1 h3 k2
  have k4 := onePole_bound hc0 hc1 h4 k3
  exact ⟨k1, k2, k3, k4⟩

/-- Helper: the filter run from the zero state keeps all four stage outputs
within `B + 1` on every sample. -/
theorem ladderRun_bound (c r B : ℚ) (input : ℕ → ℚ) (hc0 : 0 ≤ c)
    (hc1 : c ≤ 1) (hB : 0 ≤ B) (hin : ∀ n, |input n| ≤ B) (n : ℕ) :
    |(ladderRun c r input n).y1| ≤ B + 1 ∧
    |(ladderRun c r input n).y2| ≤ B + 1 ∧
    |(ladderRun c r input n).y3| ≤ B + 1 ∧
    |(ladderRun c r input n).y4| ≤ B + 1 := by
  induction n with
  | zero =>
    refine ⟨?_, ?_, ?_, ?_⟩ <;>
      · show |(0:ℚ)| ≤ B + 1
        rw [abs_zero]
        linarith
  | succ k ih =>
    obtain ⟨h1, h2, h3, h4⟩ := ih
    exact ladderStep_bound (ladderRun c r input k) (input k) hc0 hc1 h1 h2 h3 h4 (hin k)

/-- Helper: the coefficient mapping always lands in the unit interval. -/
theorem coeffOfCutoff_mem (cutoff sr : ℚ) :
    0 ≤ coeffOfCutoff cutoff sr ∧ coeffOfCutoff cutoff sr ≤ 1 := by
  unfold coeffOfCutoff clampQ
  exact ⟨le_max_left _ _, max_le (by norm_num) (min_le_left _ _)⟩

/-- C8: For every cutoff/sample-rate pair, every resonance value (so in
particular every resonance in the unit interval), and every input stream
bounded in magnitude by `B`, the spec-modelled ladder filter's output stays
within `B + 1` in magnitude on every sample: it never diverges, and in this
exact-arithmetic model no infinite or undefined value can arise. -/
theorem C8_filter_bounded (cutoff sr r B : ℚ) (input : ℕ → ℚ)
    (hB : 0 ≤ B) (hin : ∀ n, |input n| ≤ B) (n : ℕ) :
    |(ladderRun (coeffOfCutoff cutoff sr) r input n).y4| ≤ B + 1 := by
  obtain ⟨hc0, hc1⟩ := coeffOfCutoff_mem cutoff sr
  exact (ladderRun_bound (coeffOfCutoff cutoff sr) r B input hc0 hc1 hB hin n).2.2.2

/-- C8 witness: the bound at cutoff 1000 Hz, sample rate 44100 Hz, full
resonance 1, the constant unit input, and sample 4. -/
theorem C8_filter_bounded_witness :
    |(ladderRun (coeffOfCutoff 1000 44100) 1 (fun _ => 1) 4).y4| ≤ 1 + 1 :=
  C8_filter_bounded 1000 44100 1 1 (fun _ => 1) (by norm_num)
    (fun _ => by norm_num) 4
